import Mathlib

/-!
Shallow embedding of the token lifecycle core of `splatnet3_scraper`
(`splatnet3_scraper/auth/token_manager.py` and the `retry` decorator of
`splatnet3_scraper/utils.py`), together with theorems checking the
natural-language specification against it.

External network calls (the NSO minting calls and the liveness probe) are
scripted by a `World` of queued responses, and every call is counted, so
call-count properties of the derivation and retry policies can be stated
and decided.
-/

namespace Splatnet3

/-- Credential kind name for the Session credential. Modelled from the spec:
the `splatnet3_scraper.constants` module is not part of the sources; the
spec fixes three credential kinds (Session, Account = gtoken, Access =
bullet token), with lowercase names used as config option keys. -/
def SESSION_TOKEN : String := "session_token"

/-- Credential kind name for the Account credential (gtoken). -/
def GTOKEN : String := "gtoken"

/-- Credential kind name for the Access credential (bullet token). -/
def BULLET_TOKEN : String := "bullet_token"

/-- Python-dict lookup: `dictGet d k` is `d.get(k)` (`none` when absent). -/
def dictGet {α : Type} : List (String × α) → String → Option α
  | [], _ => none
  | p :: rest, k => if p.1 = k then some p.2 else dictGet rest k

/-- Python-dict insertion `d[k] = v`: replaces the first binding of `k` in
place, appends a new binding when `k` is absent. -/
def dictInsert {α : Type} : List (String × α) → String → α → List (String × α)
  | [], k, v => [(k, v)]
  | p :: rest, k, v => if p.1 = k then (k, v) :: rest else p :: dictInsert rest k v

/-- Modelled from the spec: `TOKEN_EXPIRATIONS` lives in
`splatnet3_scraper.constants`, which is not part of the sources. The spec
gives the Account (gtoken) kind a ttl of 3600 s in its scenario, gives the
Access (bullet) kind a fixed short duration, and gives the Session kind no
numeric entry, so the code default of 1e10 applies to it. -/
def TOKEN_EXPIRATIONS : List (String × Int) := [(GTOKEN, 3600), (BULLET_TOKEN, 7200)]

/-- Embeds the `Token` class: a value, a kind, and a creation timestamp
(whole seconds since the epoch). -/
structure Token where
  token : String
  token_type : String
  timestamp : Int
deriving DecidableEq, Repr

/-- Embeds `Token.__init__`s expiration computation:
`TOKEN_EXPIRATIONS.get(token_type, 1e10) + timestamp`. -/
def Token.expiration (t : Token) : Int :=
  (dictGet TOKEN_EXPIRATIONS t.token_type).getD 10000000000 + t.timestamp

/-- Embeds `Token.is_valid`: the value is non-empty (the value is a
string, so the `is not None` half of the source check is always true). -/
def Token.is_valid (t : Token) : Bool := t.token ≠ ""

/-- Embeds `Token.time_left`: `expiration - time.time()`. -/
def Token.time_left (t : Token) (now : Int) : Int := t.expiration - now

/-- Embeds `Token.is_expired`: `time_left <= 0`. -/
def Token.is_expired (t : Token) (now : Int) : Bool := t.time_left now ≤ 0

/-- The locale data captured from NSO user info. -/
structure UserInfo where
  country : String
  language : String
deriving DecidableEq, Repr

/-- The NSO collaborator fields the manager reads and writes
(`_session_token`, `_gtoken`, `_user_info`). The collaborator network
methods themselves are scripted by `World`. -/
structure NSO where
  _session_token : Option String
  _gtoken : Option String
  _user_info : Option UserInfo
deriving DecidableEq, Repr

/-- One scripted response of the external account-token minting call
`NSO.get_gtoken`: the returned gtoken, plus the user info the call leaves
on the NSO instance (`none` models user info the manager cannot read,
which `generate_gtoken` turns into a `NintendoException`). -/
structure GtokenResponse where
  gtoken : String
  user_info : Option UserInfo
deriving DecidableEq, Repr

/-- Scripted network world: queued responses consumed, in order, by the
account minting call, the access (bullet) minting call, and the liveness
probe (HTTP status codes). -/
structure World where
  gtokenResponses : List GtokenResponse
  bulletResponses : List String
  probeResponses : List Nat
deriving DecidableEq, Repr

/-- Embeds the `TokenManager` state: the NSO collaborator, the keychain
`_tokens`, the auxiliary `_data`, and the `_origin` flag. -/
structure TokenManager where
  nso : NSO
  _tokens : List (String × Token)
  _data : List (String × String)
  _origin : Option (String × Option String)
deriving DecidableEq, Repr

/-- A manager together with the scripted world and call counters for the
three kinds of network calls. -/
structure Sys where
  mgr : TokenManager
  world : World
  gtokenCalls : Nat
  bulletCalls : Nat
  probeCalls : Nat
deriving DecidableEq, Repr

/-- The Python exceptions raised by the embedded code, plus a marker for
running off the end of a response script. -/
inductive Err where
  | valueError (msg : String)
  | nintendoException (msg : String)
  | splatNetException (msg : String)
  | keyError (msg : String)
  | scriptExhausted
deriving DecidableEq, Repr

/-- The `str | Token` argument of `add_token`. -/
inductive TokenArg where
  | str (s : String)
  | tok (t : Token)
deriving DecidableEq, Repr

/-- Embeds `TokenManager.add_token`; `now` stands for the `time.time()`
used when `timestamp` is `None`. Adding a gtoken also sets
`nso._gtoken`, exactly as the source does. -/
def TokenManager.add_token (m : TokenManager) (token : TokenArg)
    (token_type : Option String) (timestamp : Option Int) (now : Int) :
    Except Err TokenManager :=
  match token with
  | .tok t =>
    let m1 : TokenManager := { m with _tokens := dictInsert m._tokens t.token_type t }
    if t.token_type = GTOKEN then
      .ok { m1 with nso := { m1.nso with _gtoken := some t.token } }
    else
      .ok m1
  | .str str =>
    match token_type with
    | none => .error (.valueError "token_type must be provided if token is a str.")
    | some tt =>
      let ts := timestamp.getD now
      let token_obj : Token := ⟨str, tt, ts⟩
      let m1 : TokenManager :=
        if token_obj.token_type = GTOKEN then
          { m with nso := { m.nso with _gtoken := some token_obj.token } }
        else m
      .ok { m1 with _tokens := dictInsert m1._tokens tt token_obj }

/-- Embeds `TokenManager.get` with `full_token=True` (raises `ValueError`
when the kind is absent). -/
def TokenManager.get_full (m : TokenManager) (token_type : String) : Except Err Token :=
  match dictGet m._tokens token_type with
  | none => .error (.valueError "Token not found.")
  | some t => .ok t

/-- Embeds `TokenManager.get` with `full_token=False`. -/
def TokenManager.get (m : TokenManager) (token_type : String) : Except Err String :=
  (m.get_full token_type).map Token.token

/-- Embeds `TokenManager.token_is_valid`: `False` when the kind is absent,
otherwise `Token.is_valid`. -/
def TokenManager.token_is_valid (m : TokenManager) (token_type : String) : Bool :=
  match m.get_full token_type with
  | .error _ => false
  | .ok t => t.is_valid

/-- Embeds `TokenManager.add_session_token`: adds the token under the
session kind and sets `nso._session_token`. The error branch of the
inner `add_token` call is unreachable because the kind is provided. -/
def TokenManager.add_session_token (m : TokenManager) (token : String) (now : Int) :
    TokenManager :=
  match m.add_token (.str token) (some SESSION_TOKEN) none now with
  | .ok m1 => { m1 with nso := { m1.nso with _session_token := some token } }
  | .error _ => m

/-- Embeds `TokenManager.flag_origin`. -/
def TokenManager.flag_origin (m : TokenManager) (origin : String) (data : Option String) :
    TokenManager :=
  { m with _origin := some (origin, data) }

/-- Scripted `NSO.get_gtoken`: consumes the next queued response, leaves
its user info on the NSO instance (the real call caches user info as a
side effect) and counts the call. The session-token argument of the real
call is opaque to the model. -/
def Sys.callGetGtoken (s : Sys) : Except Err (String × Sys) :=
  match s.world.gtokenResponses with
  | [] => .error .scriptExhausted
  | r :: rest =>
    .ok (r.gtoken,
      { mgr := { s.mgr with nso := { s.mgr.nso with _user_info := r.user_info } },
        world := { s.world with gtokenResponses := rest },
        gtokenCalls := s.gtokenCalls + 1,
        bulletCalls := s.bulletCalls,
        probeCalls := s.probeCalls })

/-- Scripted `NSO.get_bullet_token` (the access minting call). -/
def Sys.callGetBulletToken (s : Sys) : Except Err (String × Sys) :=
  match s.world.bulletResponses with
  | [] => .error .scriptExhausted
  | b :: rest =>
    .ok (b, { s with world := { s.world with bulletResponses := rest },
                     bulletCalls := s.bulletCalls + 1 })

/-- Scripted liveness probe (the `requests.post` to the GraphQL reference
URL in `test_tokens`): yields the HTTP status code. -/
def Sys.callProbe (s : Sys) : Except Err (Nat × Sys) :=
  match s.world.probeResponses with
  | [] => .error .scriptExhausted
  | c :: rest =>
    .ok (c, { s with world := { s.world with probeResponses := rest },
                     probeCalls := s.probeCalls + 1 })

/-- Embeds `TokenManager.generate_gtoken`. The returned state carries the
side effects performed up to the point of a raise. -/
def Sys.generate_gtoken (s : Sys) (now : Int) : Sys × Option Err :=
  if dictGet s.mgr._tokens SESSION_TOKEN = none then
    (s, some (.valueError "Session token must be set before generating a gtoken."))
  else
    match s.callGetGtoken with
    | .error e => (s, some e)
    | .ok (gtoken, s1) =>
      match s1.mgr.add_token (.str gtoken) (some GTOKEN) none now with
      | .error e => (s1, some e)
      | .ok m2 =>
        let s2 : Sys := { s1 with mgr := m2 }
        match s2.mgr.nso._user_info with
        | none =>
          (s2, some (.nintendoException "Unable to get user info. Gtoken may be invalid."))
        | some ui =>
          ({ s2 with mgr := { s2.mgr with
              _data := dictInsert (dictInsert s2.mgr._data "country" ui.country)
                "language" ui.language } }, none)

/-- The tail of the bullet-token body after the gtoken step: the access
minting call, storing the returned value under the bullet kind, and the
validity check that raises `SplatNetException` on an empty value. -/
def Sys.mintBullet (s1 : Sys) (now : Int) : Sys × Option Err :=
  match s1.callGetBulletToken with
  | .error e => (s1, some e)
  | .ok (bullet_token, s2) =>
    match s2.mgr.add_token (.str bullet_token) (some BULLET_TOKEN) none now with
    | .error e => (s2, some e)
    | .ok m3 =>
      let s3 : Sys := { s2 with mgr := m3 }
      match s3.mgr.get_full BULLET_TOKEN with
      | .error e => (s3, some e)
      | .ok bullet =>
        if !bullet.is_valid then
          (s3, some (.splatNetException "Bullet token was unable to be generated."))
        else (s3, none)

/-- One attempt of the body of `generate_bullet_token` (the function that
the `retry` decorator wraps): the session precondition, the gtoken step
when the gtoken entry is absent or user info is unset, then the minting
tail. -/
def Sys.generate_bullet_token_body (s : Sys) (now : Int) : Sys × Option Err :=
  if dictGet s.mgr._tokens SESSION_TOKEN = none then
    (s, some (.valueError "Session token must be set before generating a bullet token."))
  else
    match (if dictGet s.mgr._tokens GTOKEN = none ∨ s.mgr.nso._user_info = none then
        s.generate_gtoken now
      else (s, none)) with
    | (s1, some e) => (s1, some e)
    | (s1, none) => s1.mintBullet now

/-- Whether an exception is caught by `retry(exceptions=SplatNetException)`. -/
def Err.isSplatNet : Err → Bool
  | .splatNetException _ => true
  | _ => false

/-- Embeds `generate_bullet_token`: the body wrapped in
`retry(times=1, exceptions=SplatNetException)` — one attempt whose
`SplatNetException` is caught, then a final uncaught attempt. -/
def Sys.generate_bullet_token (s : Sys) (now : Int) : Sys × Option Err :=
  match s.generate_bullet_token_body now with
  | (s1, none) => (s1, none)
  | (s1, some e) =>
    if e.isSplatNet then s1.generate_bullet_token_body now
    else (s1, some e)

/-- Embeds `TokenManager.generate_all_tokens`. -/
def Sys.generate_all_tokens (s : Sys) (now : Int) : Sys × Option Err :=
  match s.generate_gtoken now with
  | (s1, some e) => (s1, some e)
  | (s1, none) => s1.generate_bullet_token now

/-- Embeds `TokenManager.test_tokens` (the liveness check): regenerate
invalid tokens, then probe; a non-200 status triggers
`generate_all_tokens`. The `is None` test on the fetched session value in
the source never fires for string tokens, so only the `get` raise is
modelled. -/
def Sys.test_tokens (s : Sys) (now : Int) : Sys × Option Err :=
  match s.mgr.get SESSION_TOKEN with
  | .error e => (s, some e)
  | .ok _ =>
    let step1 : Sys × Option Err :=
      if s.mgr.token_is_valid GTOKEN = false then s.generate_gtoken now else (s, none)
    match step1 with
    | (s1, some e) => (s1, some e)
    | (s1, none) =>
      let step2 : Sys × Option Err :=
        if s1.mgr.token_is_valid BULLET_TOKEN = false then s1.generate_bullet_token now
        else (s1, none)
      match step2 with
      | (s2, some e) => (s2, some e)
      | (s2, none) =>
        match s2.mgr.get BULLET_TOKEN with
        | .error e => (s2, some e)
        | .ok _ =>
          match dictGet s2.mgr._data "language" with
          | none => (s2, some (.keyError "language"))
          | some _ =>
            match s2.mgr.get GTOKEN with
            | .error e => (s2, some e)
            | .ok _ =>
              match s2.callProbe with
              | .error e => (s2, some e)
              | .ok (status, s3) =>
                if status ≠ 200 then s3.generate_all_tokens now else (s3, none)

/-- A parsed config file: the `tokens` and `data` sections (each a list of
options in file order; `none` when the section is absent) and the
`metadata` section. -/
structure ConfigFile where
  tokens : Option (List (String × String))
  data : Option (List (String × String))
  metadata : List (String × String)
deriving DecidableEq, Repr

/-- Stands for `splatnet3_scraper.__version__`; the value is immaterial. -/
def repoVersion : String := "0.0.0"

/-- Embeds `TokenManager.save`: the config contents written to the path. -/
def TokenManager.save (m : TokenManager) : ConfigFile :=
  { tokens := some (m._tokens.map (fun p => (p.1, p.2.token))),
    data := some m._data,
    metadata := [("version", repoVersion), ("class", "TokenManager")] }

/-- The fresh manager `from_config_file` builds before reading options: a
new NSO instance, empty keychain, origin flagged as `config_file`. -/
def initialManager (path : String) : TokenManager :=
  TokenManager.flag_origin
    { nso := { _session_token := none, _gtoken := none, _user_info := none },
      _tokens := [], _data := [], _origin := none }
    "config_file" (some path)

/-- One iteration of the `for option in config.options("tokens")` loop of
`from_config_file`: session and gtoken options also set the NSO fields,
and the option is added to the keychain with a fresh timestamp. The error
branch of `add_token` is unreachable because the kind is provided. -/
def loadTokenStep (m : TokenManager) (opt token : String) (now : Int) : TokenManager :=
  let m1 : TokenManager :=
    if opt = SESSION_TOKEN then
      { m with nso := { m.nso with _session_token := some token } }
    else if opt = GTOKEN then
      { m with nso := { m.nso with _gtoken := some token } }
    else m
  match m1.add_token (.str token) (some opt) none now with
  | .ok m2 => m2
  | .error _ => m1

/-- The `for option in config.options("tokens")` loop of
`from_config_file`: one `loadTokenStep` per option, in file order. -/
def loadTokens (m : TokenManager) (opts : List (String × String)) (now : Int) :
    TokenManager :=
  match opts with
  | [] => m
  | (opt, token) :: rest => loadTokens (loadTokenStep m opt token now) rest now

/-- The `for option in config.options("data")` loop of `from_config_file`. -/
def loadData (m : TokenManager) (opts : List (String × String)) : TokenManager :=
  match opts with
  | [] => m
  | (opt, val) :: rest =>
    loadData { m with _data := dictInsert m._data opt val } rest

/-- Embeds `TokenManager.from_config_file` against a parsed config and a
scripted world; call counters start at zero. -/
def from_config_file (path : String) (cfg : ConfigFile) (w : World) (now : Int) :
    Sys × Option Err :=
  let s0 : Sys := { mgr := initialManager path, world := w,
                    gtokenCalls := 0, bulletCalls := 0, probeCalls := 0 }
  match cfg.tokens with
  | none => (s0, some (.valueError "Config file does not have a tokens section."))
  | some topts =>
    let s1 : Sys := { s0 with mgr := loadTokens s0.mgr topts now }
    match cfg.data with
    | none => s1.generate_all_tokens now
    | some dopts =>
      let s2 : Sys := { s1 with mgr := loadData s1.mgr dopts }
      s2.test_tokens now

/-- The keychain-facing operations of claim C9. -/
inductive MgrOp where
  | addTok (token : TokenArg) (token_type : Option String) (timestamp : Option Int)
  | addSession (token : String)
  | genGtoken
  | genBullet
deriving DecidableEq, Repr

/-- Runs one manager operation at clock value `now`. -/
def Sys.runOp (s : Sys) (op : MgrOp) (now : Int) : Sys × Option Err :=
  match op with
  | .addTok t tt ts =>
    match s.mgr.add_token t tt ts now with
    | .ok m => ({ s with mgr := m }, none)
    | .error e => (s, some e)
  | .addSession tok => ({ s with mgr := s.mgr.add_session_token tok now }, none)
  | .genGtoken => s.generate_gtoken now
  | .genBullet => s.generate_bullet_token now

/-- Runs a sequence of operations, each at its own clock value, keeping
the manager state whether or not the operation raised (exceptions do not
roll the Python object back). -/
def Sys.runOps (s : Sys) (ops : List (MgrOp × Int)) : Sys :=
  match ops with
  | [] => s
  | p :: rest => ((s.runOp p.1 p.2).1).runOps rest

/-- Keychain kind consistency: every stored pair maps kind `k` to a token
whose `token_type` is `k`, and every kind is stored at most once. -/
def KeychainInv (d : List (String × Token)) : Prop :=
  (∀ p ∈ d, p.2.token_type = p.1) ∧ (d.map Prod.fst).Nodup

lemma dictGet_dictInsert_self {α : Type} (d : List (String × α)) (k : String) (v : α) :
    dictGet (dictInsert d k v) k = some v := by
  induction d with
  | nil => simp [dictInsert, dictGet]
  | cons p rest ih =>
    by_cases h : p.1 = k
    · simp [dictInsert, dictGet, h]
    · simp [dictInsert, dictGet, h, ih]

lemma dictGet_dictInsert_ne {α : Type} (d : List (String × α)) (k k' : String) (v : α)
    (h : k' ≠ k) : dictGet (dictInsert d k v) k' = dictGet d k' := by
  induction d with
  | nil => simp [dictInsert, dictGet, Ne.symm h]
  | cons p rest ih =>
    by_cases hp : p.1 = k
    · simp [dictInsert, dictGet, hp, Ne.symm h, ih]
    · simp [dictInsert, dictGet, hp, ih]

lemma sess_ne_gtoken : SESSION_TOKEN ≠ GTOKEN := by decide

lemma sess_ne_bullet : SESSION_TOKEN ≠ BULLET_TOKEN := by decide

lemma gtoken_ne_bullet : GTOKEN ≠ BULLET_TOKEN := by decide

lemma bullet_ne_gtoken : BULLET_TOKEN ≠ GTOKEN := by decide

/-- Specification of the success path of `generate_gtoken`: with a session
entry present and a scripted response carrying user info, the result is
explicit — one minting call, the gtoken stored under the gtoken kind, the
NSO fields updated, and the locale data recorded. -/
lemma gg_spec (s : Sys) (now : Int) (tk : Token) (g : String) (ui : UserInfo)
    (rest : List GtokenResponse)
    (hsess : dictGet s.mgr._tokens SESSION_TOKEN = some tk)
    (hw : s.world.gtokenResponses = ⟨g, some ui⟩ :: rest) :
    s.generate_gtoken now =
      ({ mgr := { nso := { _session_token := s.mgr.nso._session_token,
                           _gtoken := some g,
                           _user_info := some ui },
                  _tokens := dictInsert s.mgr._tokens GTOKEN ⟨g, GTOKEN, now⟩,
                  _data := dictInsert (dictInsert s.mgr._data "country" ui.country)
                    "language" ui.language,
                  _origin := s.mgr._origin },
         world := { s.world with gtokenResponses := rest },
         gtokenCalls := s.gtokenCalls + 1,
         bulletCalls := s.bulletCalls,
         probeCalls := s.probeCalls }, none) := by
  unfold Sys.generate_gtoken
  simp [hsess, Sys.callGetGtoken, hw, TokenManager.add_token]

/-- Frame facts of `generate_gtoken`, raising or not: it never touches the
bullet or probe scripts or counters, makes at most one minting call, and
leaves every keychain entry other than the gtoken kind unchanged. -/
lemma gg_frame (s : Sys) (now : Int) :
    (s.generate_gtoken now).1.bulletCalls = s.bulletCalls ∧
    (s.generate_gtoken now).1.probeCalls = s.probeCalls ∧
    (s.generate_gtoken now).1.world.bulletResponses = s.world.bulletResponses ∧
    (s.generate_gtoken now).1.world.probeResponses = s.world.probeResponses ∧
    (s.generate_gtoken now).1.gtokenCalls ≤ s.gtokenCalls + 1 ∧
    s.gtokenCalls ≤ (s.generate_gtoken now).1.gtokenCalls ∧
    (∀ k, k ≠ GTOKEN →
      dictGet (s.generate_gtoken now).1.mgr._tokens k = dictGet s.mgr._tokens k) := by
  unfold Sys.generate_gtoken
  split
  · simp
  · rcases hw : s.world.gtokenResponses with _ | ⟨r, rest⟩
    · simp [Sys.callGetGtoken, hw]
    · rcases r with ⟨g, ui⟩
      rcases ui with _ | ui
      · simp [Sys.callGetGtoken, hw, TokenManager.add_token]
        intro k hk
        exact dictGet_dictInsert_ne _ _ _ _ hk
      · simp [Sys.callGetGtoken, hw, TokenManager.add_token]
        intro k hk
        exact dictGet_dictInsert_ne _ _ _ _ hk

/-- On success, `generate_gtoken` made exactly one minting call, stored a
gtoken entry, and left user info set. -/
lemma gg_ok (s : Sys) (now : Int) (h : (s.generate_gtoken now).2 = none) :
    (s.generate_gtoken now).1.gtokenCalls = s.gtokenCalls + 1 ∧
    (dictGet (s.generate_gtoken now).1.mgr._tokens GTOKEN).isSome ∧
    (s.generate_gtoken now).1.mgr.nso._user_info.isSome := by
  rcases hs : dictGet s.mgr._tokens SESSION_TOKEN with _ | tk
  · unfold Sys.generate_gtoken at h
    simp [hs] at h
  · rcases hw : s.world.gtokenResponses with _ | ⟨⟨g, ui⟩, rest⟩
    · unfold Sys.generate_gtoken at h
      simp [hs, Sys.callGetGtoken, hw] at h
    · rcases ui with _ | ui
      · unfold Sys.generate_gtoken at h
        simp [hs, Sys.callGetGtoken, hw, TokenManager.add_token] at h
      · rw [gg_spec s now tk g ui rest hs hw]
        simp [dictGet_dictInsert_self]

/-- Specification of the minting tail: with at least one scripted access
response left, exactly one access minting call happens, the returned
value is stored under the bullet kind with a fresh timestamp, and the
attempt raises `SplatNetException` exactly when the returned value is
empty. -/
lemma mint_spec (s1 : Sys) (now : Int) (b : String) (rest : List String)
    (hb : s1.world.bulletResponses = b :: rest) :
    s1.mintBullet now =
      ({ mgr := { s1.mgr with
            _tokens := dictInsert s1.mgr._tokens BULLET_TOKEN ⟨b, BULLET_TOKEN, now⟩ },
         world := { s1.world with bulletResponses := rest },
         gtokenCalls := s1.gtokenCalls,
         bulletCalls := s1.bulletCalls + 1,
         probeCalls := s1.probeCalls },
       if b = "" then some (.splatNetException "Bullet token was unable to be generated.")
       else none) := by
  unfold Sys.mintBullet
  simp [Sys.callGetBulletToken, hb, TokenManager.add_token,
    bullet_ne_gtoken, TokenManager.get_full, dictGet_dictInsert_self, Token.is_valid]
  split
  · simp_all [bullet_ne_gtoken]
  · simp_all [bullet_ne_gtoken]

/-- Frame facts of the minting tail: at most one access call, no gtoken
or probe activity, the NSO fields untouched, and every keychain entry
other than the bullet kind unchanged. -/
lemma mint_frame (s1 : Sys) (now : Int) :
    (s1.mintBullet now).1.bulletCalls ≤ s1.bulletCalls + 1 ∧
    s1.bulletCalls ≤ (s1.mintBullet now).1.bulletCalls ∧
    (s1.mintBullet now).1.gtokenCalls = s1.gtokenCalls ∧
    (s1.mintBullet now).1.probeCalls = s1.probeCalls ∧
    (s1.mintBullet now).1.mgr.nso = s1.mgr.nso ∧
    (∀ k, k ≠ BULLET_TOKEN →
      dictGet (s1.mintBullet now).1.mgr._tokens k = dictGet s1.mgr._tokens k) := by
  rcases hb : s1.world.bulletResponses with _ | ⟨b, rest⟩
  · unfold Sys.mintBullet
    simp [Sys.callGetBulletToken, hb]
  · rw [mint_spec s1 now b rest hb]
    refine ⟨by simp, by simp, by simp, by simp, by simp, ?_⟩
    intro k hk
    exact dictGet_dictInsert_ne _ _ _ _ hk

/-- Specification of one attempt of the bullet-token body when the
session and gtoken entries are present and user info is set: no gtoken
step runs and the minting tail executes once. -/
lemma body_spec (s : Sys) (now : Int) (tk gt : Token) (ui : UserInfo) (b : String)
    (rest : List String)
    (hsess : dictGet s.mgr._tokens SESSION_TOKEN = some tk)
    (hg : dictGet s.mgr._tokens GTOKEN = some gt)
    (hui : s.mgr.nso._user_info = some ui)
    (hb : s.world.bulletResponses = b :: rest) :
    s.generate_bullet_token_body now =
      ({ mgr := { s.mgr with
            _tokens := dictInsert s.mgr._tokens BULLET_TOKEN ⟨b, BULLET_TOKEN, now⟩ },
         world := { s.world with bulletResponses := rest },
         gtokenCalls := s.gtokenCalls,
         bulletCalls := s.bulletCalls + 1,
         probeCalls := s.probeCalls },
       if b = "" then some (.splatNetException "Bullet token was unable to be generated.")
       else none) := by
  unfold Sys.generate_bullet_token_body
  rw [if_neg (by simp [hsess]), if_neg (by simp [hg, hui])]
  exact mint_spec s now b rest hb

/-- Call-count bounds of one attempt of the bullet-token body: at most
one access minting call and at most one account minting call, never a
probe. -/
lemma body_calls (s : Sys) (now : Int) :
    (s.generate_bullet_token_body now).1.bulletCalls ≤ s.bulletCalls + 1 ∧
    s.bulletCalls ≤ (s.generate_bullet_token_body now).1.bulletCalls ∧
    (s.generate_bullet_token_body now).1.gtokenCalls ≤ s.gtokenCalls + 1 ∧
    (s.generate_bullet_token_body now).1.probeCalls = s.probeCalls := by
  unfold Sys.generate_bullet_token_body
  split
  · simp
  · by_cases hc : dictGet s.mgr._tokens GTOKEN = none ∨ s.mgr.nso._user_info = none
    · rw [if_pos hc]
      rcases hgg : s.generate_gtoken now with ⟨s1, e⟩
      have hf := gg_frame s now
      rw [hgg] at hf
      rcases e with _ | e
      · have hm := mint_frame s1 now
        simp only [] at hf ⊢
        omega
      · simp only [] at hf ⊢
        omega
    · rw [if_neg hc]
      have hm := mint_frame s now
      simp only []
      omega

/-- The access minting call is never executed a third time by one
invocation of `generate_bullet_token`, whatever the state. -/
lemma bullet_calls_le (s : Sys) (now : Int) :
    (s.generate_bullet_token now).1.bulletCalls ≤ s.bulletCalls + 2 := by
  unfold Sys.generate_bullet_token
  rcases h1 : s.generate_bullet_token_body now with ⟨s1, e⟩
  have hb1 := body_calls s now
  rw [h1] at hb1
  simp only [] at hb1
  rcases e with _ | e
  · simp only []
    omega
  · simp only []
    split
    · have hb2 := body_calls s1 now
      omega
    · simp only []
      omega

/-- Presence of the gtoken keychain entry is preserved by
`generate_gtoken`, raising or not. -/
lemma gg_gtoken_mono (s : Sys) (now : Int)
    (h : (dictGet s.mgr._tokens GTOKEN).isSome) :
    (dictGet (s.generate_gtoken now).1.mgr._tokens GTOKEN).isSome := by
  unfold Sys.generate_gtoken
  split
  · exact h
  · rcases hw : s.world.gtokenResponses with _ | ⟨⟨g, ui⟩, rest⟩
    · simp only [Sys.callGetGtoken, hw]
      exact h
    · rcases ui with _ | ui
      · simp [Sys.callGetGtoken, hw, TokenManager.add_token, dictGet_dictInsert_self]
      · simp [Sys.callGetGtoken, hw, TokenManager.add_token, dictGet_dictInsert_self]

/-- Presence of the gtoken keychain entry is preserved by one attempt of
the bullet-token body. -/
lemma body_gtoken_mono (s : Sys) (now : Int)
    (h : (dictGet s.mgr._tokens GTOKEN).isSome) :
    (dictGet (s.generate_bullet_token_body now).1.mgr._tokens GTOKEN).isSome := by
  unfold Sys.generate_bullet_token_body
  split
  · exact h
  · by_cases hc : dictGet s.mgr._tokens GTOKEN = none ∨ s.mgr.nso._user_info = none
    · rw [if_pos hc]
      rcases hgg : s.generate_gtoken now with ⟨s1, e⟩
      have h1 : (dictGet s1.mgr._tokens GTOKEN).isSome := by
        have h2 := gg_gtoken_mono s now h
        rw [hgg] at h2
        exact h2
      rcases e with _ | e
      · simp only []
        have hm := (mint_frame s1 now).2.2.2.2.2 GTOKEN gtoken_ne_bullet
        rw [hm]
        exact h1
      · simp only []
        exact h1
    · rw [if_neg hc]
      simp only []
      have hm := (mint_frame s now).2.2.2.2.2 GTOKEN gtoken_ne_bullet
      rw [hm]
      exact h

/-- If one attempt of the bullet-token body executed the access minting
call, the resulting keychain holds a gtoken entry: the minting call never
runs without an Account credential in the keychain. -/
lemma body_gtoken_after_mint (s : Sys) (now : Int)
    (h : s.bulletCalls < (s.generate_bullet_token_body now).1.bulletCalls) :
    (dictGet (s.generate_bullet_token_body now).1.mgr._tokens GTOKEN).isSome := by
  by_cases hg : (dictGet s.mgr._tokens GTOKEN).isSome
  · exact body_gtoken_mono s now hg
  · have hgn : dictGet s.mgr._tokens GTOKEN = none := by
      rcases hx : dictGet s.mgr._tokens GTOKEN with _ | t
      · rfl
      · rw [hx] at hg
        simp at hg
    rcases hs : dictGet s.mgr._tokens SESSION_TOKEN with _ | tk
    · unfold Sys.generate_bullet_token_body at h
      rw [if_pos hs] at h
      simp at h
    · unfold Sys.generate_bullet_token_body at h ⊢
      rw [if_neg (by simp [hs]), if_pos (Or.inl hgn)] at h ⊢
      revert h
      generalize h1 : s.generate_gtoken now = p
      rcases p with ⟨s1, e⟩
      intro h
      rcases e with _ | e
      · simp only [] at h ⊢
        have h2 := (gg_ok s now (by rw [h1])).2.1
        rw [h1] at h2
        simp only [] at h2
        have hm := (mint_frame s1 now).2.2.2.2.2 GTOKEN gtoken_ne_bullet
        rw [hm]
        exact h2
      · simp only [] at h
        have hf := gg_frame s now
        rw [h1] at hf
        simp only [] at hf
        omega

/-- If an invocation of `generate_bullet_token` executed the access
minting call, the resulting keychain holds a gtoken entry. -/
lemma bullet_gtoken_after (s : Sys) (now : Int)
    (h : s.bulletCalls < (s.generate_bullet_token now).1.bulletCalls) :
    (dictGet (s.generate_bullet_token now).1.mgr._tokens GTOKEN).isSome := by
  unfold Sys.generate_bullet_token at h ⊢
  revert h
  generalize h1 : s.generate_bullet_token_body now = p
  rcases p with ⟨s1, e⟩
  intro h
  rcases e with _ | e
  · simp only [] at h ⊢
    have h2 := body_gtoken_after_mint s now (by rw [h1]; simpa using h)
    rw [h1] at h2
    simpa using h2
  · simp only [] at h ⊢
    by_cases hsp : e.isSplatNet = true
    · rw [if_pos hsp] at h ⊢
      by_cases h2 : s1.bulletCalls < (s1.generate_bullet_token_body now).1.bulletCalls
      · exact body_gtoken_after_mint s1 now h2
      · have hb2 := body_calls s1 now
        have hfirst : s.bulletCalls < s1.bulletCalls := by omega
        have hg1 := body_gtoken_after_mint s now (by rw [h1]; simpa using hfirst)
        rw [h1] at hg1
        simp only [] at hg1
        exact body_gtoken_mono s1 now hg1
    · rw [if_neg hsp] at h ⊢
      simp only [] at h ⊢
      have h2 := body_gtoken_after_mint s now (by rw [h1]; simpa using h)
      rw [h1] at h2
      simpa using h2

/-- With no session entry present, `generate_gtoken` raises `ValueError`
and the state is completely unchanged: no network call is attempted. -/
lemma no_session_gg (s : Sys) (now : Int)
    (h : dictGet s.mgr._tokens SESSION_TOKEN = none) :
    s.generate_gtoken now =
      (s, some (.valueError "Session token must be set before generating a gtoken.")) := by
  unfold Sys.generate_gtoken
  rw [if_pos h]

/-- With no session entry present, `generate_bullet_token` raises
`ValueError` and the state is completely unchanged: no network call is
attempted and the retry wrapper does not catch the error. -/
lemma no_session_bullet (s : Sys) (now : Int)
    (h : dictGet s.mgr._tokens SESSION_TOKEN = none) :
    s.generate_bullet_token now =
      (s, some (.valueError "Session token must be set before generating a bullet token.")) := by
  have hb : s.generate_bullet_token_body now =
      (s, some (.valueError "Session token must be set before generating a bullet token.")) := by
    unfold Sys.generate_bullet_token_body
    rw [if_pos h]
  unfold Sys.generate_bullet_token
  rw [hb]
  simp [Err.isSplatNet]

/-- The state after a fresh Account derivation followed by one Access
minting call, starting from `s` with scripted heads `(g, ui)` and `b`. -/
def afterDerive (s : Sys) (now : Int) (g : String) (ui : UserInfo)
    (grest : List GtokenResponse) (b : String) (brest : List String) : Sys :=
  { mgr :=
      { nso := ⟨s.mgr.nso._session_token, some g, some ui⟩,
        _tokens := dictInsert (dictInsert s.mgr._tokens GTOKEN ⟨g, GTOKEN, now⟩)
          BULLET_TOKEN ⟨b, BULLET_TOKEN, now⟩,
        _data := dictInsert (dictInsert s.mgr._data "country" ui.country)
          "language" ui.language,
        _origin := s.mgr._origin },
    world := { gtokenResponses := grest, bulletResponses := brest,
               probeResponses := s.world.probeResponses },
    gtokenCalls := s.gtokenCalls + 1,
    bulletCalls := s.bulletCalls + 1,
    probeCalls := s.probeCalls }

/-- A concrete state with the gtoken entry absent: session present, one
scripted account response with user info, one valid access response. -/
def SysC2W : Sys :=
  { mgr :=
      { nso := ⟨some "sess", none, none⟩,
        _tokens := [(SESSION_TOKEN, ⟨"sess", SESSION_TOKEN, 0⟩)],
        _data := [], _origin := none },
    world := { gtokenResponses := [⟨"g1", some ⟨"US", "en-US"⟩⟩], bulletResponses := ["b1"],
               probeResponses := [] },
    gtokenCalls := 0, bulletCalls := 0, probeCalls := 0 }

/-- A concrete state with no session entry at all. -/
def SysC2X : Sys :=
  { mgr :=
      { nso := ⟨none, none, none⟩, _tokens := [], _data := [], _origin := none },
    world := { gtokenResponses := [⟨"g1", some ⟨"US", "en-US"⟩⟩], bulletResponses := ["b1"],
               probeResponses := [] },
    gtokenCalls := 0, bulletCalls := 0, probeCalls := 0 }

/-- A concrete state with an expired, empty Account credential present
and user info set, so the bullet path does not regenerate it. -/
def SysC2 : Sys :=
  { mgr :=
      { nso := ⟨some "sess", some "", some ⟨"US", "en-US"⟩⟩,
        _tokens := [(SESSION_TOKEN, ⟨"sess", SESSION_TOKEN, 0⟩), (GTOKEN, ⟨"", GTOKEN, 0⟩)],
        _data := [], _origin := none },
    world := { gtokenResponses := [], bulletResponses := ["b1"], probeResponses := [] },
    gtokenCalls := 0, bulletCalls := 0, probeCalls := 0 }

/-- C2 counterexample: an Account credential that is present but expired
— and even empty, hence invalid — does not trigger an Account
derivation: with user info set, `generate_bullet_token` executes zero
account minting calls and succeeds, proceeding with the expired invalid
Account credential. This refutes both the `or expired` trigger and the
`never proceeds without a valid Account credential` part of the claim. -/
theorem claim_C2_counterexample :
    (Token.mk "" GTOKEN 0).is_expired 10000000001 = true ∧
    (Token.mk "" GTOKEN 0).is_valid = false ∧
    dictGet SysC2.mgr._tokens GTOKEN = some (Token.mk "" GTOKEN 0) ∧
    (SysC2.generate_bullet_token 10000000001).1.gtokenCalls = 0 ∧
    (SysC2.generate_bullet_token 10000000001).1.bulletCalls = 1 ∧
    (SysC2.generate_bullet_token 10000000001).2 = none := by
  decide

/-- C2 amended: deriving the Access credential when the Account entry is
absent from the keychain runs exactly one Account derivation and then one
Access derivation (an Account entry that is merely expired or invalid
does not re-derive); Account derivation never proceeds without a Session
entry, and neither does Access derivation; and the access minting call
never runs without an Account entry in the keychain — though that entry
is not required to be valid or unexpired. -/
theorem claim_C2 :
    (∀ (s : Sys) (now : Int) (tk : Token) (g : String) (ui : UserInfo)
      (grest : List GtokenResponse) (b : String) (brest : List String),
      dictGet s.mgr._tokens SESSION_TOKEN = some tk →
      dictGet s.mgr._tokens GTOKEN = none →
      s.world.gtokenResponses = ⟨g, some ui⟩ :: grest →
      s.world.bulletResponses = b :: brest →
      b ≠ "" →
      ((s.generate_bullet_token now).1.gtokenCalls = s.gtokenCalls + 1 ∧
       (s.generate_bullet_token now).1.bulletCalls = s.bulletCalls + 1 ∧
       (s.generate_bullet_token now).2 = none)) ∧
    (∀ (s : Sys) (now : Int),
      dictGet s.mgr._tokens SESSION_TOKEN = none →
      (s.generate_gtoken now =
        (s, some (.valueError "Session token must be set before generating a gtoken.")) ∧
       s.generate_bullet_token now =
        (s, some (.valueError "Session token must be set before generating a bullet token.")))) ∧
    (∀ (s : Sys) (now : Int),
      s.bulletCalls < (s.generate_bullet_token now).1.bulletCalls →
      (dictGet (s.generate_bullet_token now).1.mgr._tokens GTOKEN).isSome) := by
  refine ⟨?_, ?_, bullet_gtoken_after⟩
  · intro s now tk g ui grest b brest hsess hgt hgw hbw hbne
    have hbody : s.generate_bullet_token_body now =
        (afterDerive s now g ui grest b brest, none) := by
      unfold Sys.generate_bullet_token_body
      rw [if_neg (by simp [hsess]), if_pos (Or.inl hgt),
        gg_spec s now tk g ui grest hsess hgw]
      simp only []
      rw [mint_spec _ now b brest (by exact hbw), if_neg hbne]
      rfl
    unfold Sys.generate_bullet_token
    rw [hbody]
    simp only []
    exact ⟨rfl, rfl, trivial⟩
  · exact fun s now h => ⟨no_session_gg s now h, no_session_bullet s now h⟩

/-- C2 witness: the amended claim instantiated at concrete states —
`SysC2W` (gtoken absent, one account then one access call), `SysC2X` (no
session entry), and the minting-implies-gtoken-present part at `SysC2W`. -/
theorem claim_C2_witness :
    ((SysC2W.generate_bullet_token 3).1.gtokenCalls = SysC2W.gtokenCalls + 1 ∧
     (SysC2W.generate_bullet_token 3).1.bulletCalls = SysC2W.bulletCalls + 1 ∧
     (SysC2W.generate_bullet_token 3).2 = none) ∧
    (SysC2X.generate_gtoken 3 =
      (SysC2X, some (.valueError "Session token must be set before generating a gtoken.")) ∧
     SysC2X.generate_bullet_token 3 =
      (SysC2X, some (.valueError "Session token must be set before generating a bullet token."))) ∧
    (dictGet (SysC2W.generate_bullet_token 3).1.mgr._tokens GTOKEN).isSome :=
  ⟨claim_C2.1 SysC2W 3 ⟨"sess", SESSION_TOKEN, 0⟩ "g1" ⟨"US", "en-US"⟩ [] "b1" []
      (by decide) (by decide) rfl rfl (by decide),
   claim_C2.2.1 SysC2X 3 (by decide),
   claim_C2.2.2 SysC2W 3 (by decide)⟩

/-- A concrete state exercising the bullet retry path: session and gtoken
entries present, user info set, two scripted access responses with the
first one empty. -/
def SysC1 : Sys :=
  { mgr :=
      { nso := ⟨some "sess", some "gee", some ⟨"US", "en-US"⟩⟩,
        _tokens := [(SESSION_TOKEN, ⟨"sess", SESSION_TOKEN, 0⟩), (GTOKEN, ⟨"gee", GTOKEN, 0⟩)],
        _data := [], _origin := none },
    world := { gtokenResponses := [], bulletResponses := ["", "b2"], probeResponses := [] },
    gtokenCalls := 0, bulletCalls := 0, probeCalls := 0 }

/-- C1: with the session and gtoken entries present and user info set, if
the first scripted access minting response is empty then the minting call
is executed exactly twice — succeeding when the second response is
non-empty and raising `SplatNetException` when the second response is
also empty; and no invocation of `generate_bullet_token` ever executes
the minting call more than twice. -/
theorem claim_C1 :
    (∀ (s : Sys) (now : Int) (tk gt : Token) (ui : UserInfo) (r2 : String)
      (rest : List String),
      dictGet s.mgr._tokens SESSION_TOKEN = some tk →
      dictGet s.mgr._tokens GTOKEN = some gt →
      s.mgr.nso._user_info = some ui →
      s.world.bulletResponses = "" :: r2 :: rest →
      ((s.generate_bullet_token now).1.bulletCalls = s.bulletCalls + 2 ∧
       (r2 ≠ "" → (s.generate_bullet_token now).2 = none) ∧
       (r2 = "" → (s.generate_bullet_token now).2 =
         some (.splatNetException "Bullet token was unable to be generated.")))) ∧
    (∀ (s : Sys) (now : Int),
      (s.generate_bullet_token now).1.bulletCalls ≤ s.bulletCalls + 2) := by
  refine ⟨?_, bullet_calls_le⟩
  intro s now tk gt ui r2 rest hsess hg hui hb
  unfold Sys.generate_bullet_token
  rw [body_spec s now tk gt ui "" (r2 :: rest) hsess hg hui hb, if_pos rfl]
  simp only [Err.isSplatNet, if_true]
  rw [body_spec _ now tk gt ui r2 rest
    (by exact (dictGet_dictInsert_ne _ _ _ _ sess_ne_bullet).trans hsess)
    (by exact (dictGet_dictInsert_ne _ _ _ _ gtoken_ne_bullet).trans hg)
    (by exact hui) (by rfl)]
  refine ⟨by simp, ?_, ?_⟩
  · intro h
    simp [h]
  · intro h
    simp [h]

/-- C1 witness: the two-attempt retry at the concrete state `SysC1`. -/
theorem claim_C1_witness :
    (SysC1.generate_bullet_token 5).1.bulletCalls = SysC1.bulletCalls + 2 ∧
    ("b2" ≠ "" → (SysC1.generate_bullet_token 5).2 = none) ∧
    ("b2" = "" → (SysC1.generate_bullet_token 5).2 =
      some (.splatNetException "Bullet token was unable to be generated.")) :=
  claim_C1.1 SysC1 5 ⟨"sess", SESSION_TOKEN, 0⟩ ⟨"gee", GTOKEN, 0⟩ ⟨"US", "en-US"⟩ "b2" []
    (by decide) (by decide) rfl rfl

lemma ttl_session_none : dictGet TOKEN_EXPIRATIONS SESSION_TOKEN = none := by
  decide

lemma ttl_gtoken : dictGet TOKEN_EXPIRATIONS GTOKEN = some 3600 := by
  decide

lemma ttl_bullet : dictGet TOKEN_EXPIRATIONS BULLET_TOKEN = some 7200 := by
  decide

lemma ttl_pos (k : String) : 0 < (dictGet TOKEN_EXPIRATIONS k).getD 10000000000 := by
  simp only [TOKEN_EXPIRATIONS, dictGet]
  split
  · simp
  · split
    · simp
    · simp

lemma is_expired_iff (v k : String) (t now : Int) :
    (Token.mk v k t).is_expired now = true ↔
      t + (dictGet TOKEN_EXPIRATIONS k).getD 10000000000 ≤ now := by
  simp only [Token.is_expired, Token.time_left, Token.expiration, decide_eq_true_eq]
  omega

/-- C6: a credential of kind `k` created at time `t` is not expired at any
time strictly before `t + ttl(k)` (where `ttl` is the expiration-table
entry, defaulting to 1e10) and is expired at and after `t + ttl(k)`; it is
never expired at the moment of creation; and with `ttl(Account) = 3600 s`,
an Account credential created at `T0` is not expired at `T0 + 3599` and is
expired at `T0 + 3601`. -/
theorem claim_C6 :
    (∀ (v k : String) (t now : Int),
      (Token.mk v k t).is_expired now = true ↔
        t + (dictGet TOKEN_EXPIRATIONS k).getD 10000000000 ≤ now) ∧
    (∀ (v k : String) (t : Int), (Token.mk v k t).is_expired t = false) ∧
    (∀ (v : String) (T0 : Int),
      (Token.mk v GTOKEN T0).is_expired (T0 + 3599) = false ∧
      (Token.mk v GTOKEN T0).is_expired (T0 + 3601) = true) := by
  refine ⟨is_expired_iff, ?_, ?_⟩
  · intro v k t
    have h := ttl_pos k
    simp only [Token.is_expired, Token.time_left, Token.expiration, decide_eq_false_iff_not]
    omega
  · intro v T0
    constructor
    · simp only [Token.is_expired, Token.time_left, Token.expiration, ttl_gtoken,
        decide_eq_false_iff_not, Option.getD_some]
      omega
    · simp only [Token.is_expired, Token.time_left, Token.expiration, ttl_gtoken,
        decide_eq_true_eq, Option.getD_some]
      omega

/-- C4 counterexample: the claim says a Session credential is never
expired at any time after its creation, but the code gives it the default
numeric expiration of 1e10 seconds past creation, and that sentinel is
reached: a Session credential created at time 0 is expired at the strictly
later time 1e10. -/
theorem claim_C4_counterexample :
    (0 : Int) < 10000000000 ∧
    (Token.mk "sess-abc" SESSION_TOKEN 0).is_expired 10000000000 = true := by
  constructor
  · norm_num
  · decide

/-- C4 amended: a Session credential has no entry in the expiration
table, so it receives the default expiration of 1e10 seconds past its
creation time: `is_expired` is false at every time strictly before
`t + 1e10` and true from `t + 1e10` on. -/
theorem claim_C4 (v : String) (t now : Int) :
    (Token.mk v SESSION_TOKEN t).is_expired now = true ↔ t + 10000000000 ≤ now := by
  have h := is_expired_iff v SESSION_TOKEN t now
  rwa [ttl_session_none] at h

/-- C10: adding a string token with no token type raises a `ValueError`,
and the whole state — in particular the keychain mapping — is unchanged by
the failed call. -/
theorem claim_C10 (s : Sys) (v : String) (ts : Option Int) (now : Int) :
    s.runOp (.addTok (.str v) none ts) now =
      (s, some (.valueError "token_type must be provided if token is a str.")) := by
  rfl

/-- A concrete state whose session entry is present but empty. -/
def SysC5 : Sys :=
  { mgr :=
      { nso := ⟨some "", none, none⟩,
        _tokens := [(SESSION_TOKEN, ⟨"", SESSION_TOKEN, 0⟩)],
        _data := [], _origin := none },
    world := { gtokenResponses := [⟨"g1", some ⟨"US", "en-US"⟩⟩], bulletResponses := [],
               probeResponses := [] },
    gtokenCalls := 0, bulletCalls := 0, probeCalls := 0 }

/-- C5 counterexample: the claim requires the session credential to be
present AND non-empty, failing otherwise before any network call; but an
empty session credential passes the check — `generate_gtoken` executes
the account minting call (one network call) and succeeds. -/
theorem claim_C5_counterexample :
    (Token.mk "" SESSION_TOKEN 0).is_valid = false ∧
    dictGet SysC5.mgr._tokens SESSION_TOKEN = some (Token.mk "" SESSION_TOKEN 0) ∧
    (SysC5.generate_gtoken 0).1.gtokenCalls = 1 ∧
    (SysC5.generate_gtoken 0).2 = none := by
  decide

/-- A concrete state with an empty keychain, for the absent-session
precondition path. -/
def SysC5X : Sys :=
  { mgr :=
      { nso := ⟨none, none, none⟩, _tokens := [], _data := [], _origin := none },
    world := { gtokenResponses := [⟨"g1", some ⟨"US", "en-US"⟩⟩], bulletResponses := ["b1"],
               probeResponses := [] },
    gtokenCalls := 0, bulletCalls := 0, probeCalls := 0 }

/-- C5 amended: both derivations require only that a session entry is
present in the keychain, raising `ValueError` before any network call
when it is absent; the value is not checked for emptiness. -/
theorem claim_C5 (s : Sys) (now : Int)
    (h : dictGet s.mgr._tokens SESSION_TOKEN = none) :
    s.generate_gtoken now =
      (s, some (.valueError "Session token must be set before generating a gtoken.")) ∧
    s.generate_bullet_token now =
      (s, some (.valueError "Session token must be set before generating a bullet token.")) :=
  ⟨no_session_gg s now h, no_session_bullet s now h⟩

/-- C5 witness: the precondition failure at the concrete empty-keychain
state `SysC5X`. -/
theorem claim_C5_witness :
    SysC5X.generate_gtoken 4 =
      (SysC5X, some (.valueError "Session token must be set before generating a gtoken.")) ∧
    SysC5X.generate_bullet_token 4 =
      (SysC5X, some (.valueError "Session token must be set before generating a bullet token.")) :=
  claim_C5 SysC5X 4 (by decide)

/-- A concrete manager with all NSO fields unset. -/
def MgrC8 : TokenManager :=
  { nso := ⟨none, none, none⟩, _tokens := [], _data := [], _origin := none }

/-- C8 counterexample: the claim says `add` leaves all state other than
the keychain mapping — in particular the NSO collaborator fields —
unchanged; but adding a gtoken sets `nso._gtoken`. -/
theorem claim_C8_counterexample :
    MgrC8.nso._gtoken = none ∧
    (MgrC8.add_token (.str "g1") (some GTOKEN) none 0).toOption.map
      (fun m => m.nso._gtoken) = some (some "g1") := by
  decide

/-- C8 amended: `add_token` of a non-gtoken string changes only the
keychain mapping; `add_token` of a gtoken additionally sets
`nso._gtoken`; `add_session_token` additionally sets
`nso._session_token`; none of them perform network access or touch the
auxiliary data or origin. -/
theorem claim_C8 :
    (∀ (m : TokenManager) (v tt : String) (ts : Option Int) (now : Int)
      (m' : TokenManager),
      tt ≠ GTOKEN →
      m.add_token (.str v) (some tt) ts now = .ok m' →
      (m'.nso = m.nso ∧ m'._data = m._data ∧ m'._origin = m._origin ∧
       m'._tokens = dictInsert m._tokens tt ⟨v, tt, ts.getD now⟩)) ∧
    (∀ (m : TokenManager) (v : String) (ts : Option Int) (now : Int)
      (m' : TokenManager),
      m.add_token (.str v) (some GTOKEN) ts now = .ok m' →
      (m'.nso._session_token = m.nso._session_token ∧
       m'.nso._user_info = m.nso._user_info ∧
       m'.nso._gtoken = some v ∧
       m'._data = m._data ∧ m'._origin = m._origin ∧
       m'._tokens = dictInsert m._tokens GTOKEN ⟨v, GTOKEN, ts.getD now⟩)) ∧
    (∀ (m : TokenManager) (tok : String) (now : Int),
      ((m.add_session_token tok now)._data = m._data ∧
       (m.add_session_token tok now)._origin = m._origin ∧
       (m.add_session_token tok now).nso._gtoken = m.nso._gtoken ∧
       (m.add_session_token tok now).nso._user_info = m.nso._user_info ∧
       (m.add_session_token tok now).nso._session_token = some tok ∧
       (m.add_session_token tok now)._tokens =
         dictInsert m._tokens SESSION_TOKEN ⟨tok, SESSION_TOKEN, now⟩)) := by
  refine ⟨?_, ?_, ?_⟩
  · intro m v tt ts now m' htt h
    unfold TokenManager.add_token at h
    simp only [htt, if_false, ite_false, Except.ok.injEq] at h
    subst h
    simp [htt]
  · intro m v ts now m' h
    unfold TokenManager.add_token at h
    simp only [if_pos rfl, ite_true, Except.ok.injEq] at h
    subst h
    simp
  · intro m tok now
    unfold TokenManager.add_session_token TokenManager.add_token
    simp [sess_ne_gtoken]

/-- The result of adding a bullet token to `MgrC8`. -/
def MgrC8after : TokenManager :=
  { MgrC8 with _tokens := dictInsert MgrC8._tokens BULLET_TOKEN ⟨"bb", BULLET_TOKEN, 9⟩ }

/-- C8 witness: the frame facts instantiated at the concrete manager
`MgrC8` for a non-gtoken add and a session add. -/
theorem claim_C8_witness :
    (MgrC8after.nso = MgrC8.nso ∧
     MgrC8after._data = MgrC8._data ∧
     MgrC8after._origin = MgrC8._origin ∧
     MgrC8after._tokens =
       dictInsert MgrC8._tokens BULLET_TOKEN ⟨"bb", BULLET_TOKEN, 9⟩) ∧
    ((MgrC8.add_session_token "ss" 9)._data = MgrC8._data ∧
     (MgrC8.add_session_token "ss" 9)._origin = MgrC8._origin ∧
     (MgrC8.add_session_token "ss" 9).nso._gtoken = MgrC8.nso._gtoken ∧
     (MgrC8.add_session_token "ss" 9).nso._user_info = MgrC8.nso._user_info ∧
     (MgrC8.add_session_token "ss" 9).nso._session_token = some "ss" ∧
     (MgrC8.add_session_token "ss" 9)._tokens =
       dictInsert MgrC8._tokens SESSION_TOKEN ⟨"ss", SESSION_TOKEN, 9⟩) :=
  ⟨claim_C8.1 MgrC8 "bb" BULLET_TOKEN none 9 MgrC8after (by decide) rfl,
   claim_C8.2.2 MgrC8 "ss" 9⟩

lemma mem_keys_dictInsert {α : Type} (d : List (String × α)) (k : String) (v : α)
    (x : String) (hx : x ∈ (dictInsert d k v).map Prod.fst) :
    x ∈ d.map Prod.fst ∨ x = k := by
  induction d with
  | nil =>
    simp only [dictInsert, List.map_cons, List.map_nil, List.mem_singleton] at hx
    right
    exact hx
  | cons p rest ih =>
    by_cases hp : p.1 = k
    · simp only [dictInsert, hp, if_true, ite_true, List.map_cons, List.mem_cons] at hx
      rcases hx with h | h
      · right
        exact h
      · left
        simp only [List.map_cons, List.mem_cons]
        right
        exact h
    · simp only [dictInsert, hp, if_false, ite_false, List.map_cons, List.mem_cons] at hx
      rcases hx with h | h
      · left
        simp only [List.map_cons, List.mem_cons]
        left
        exact h
      · rcases ih h with h2 | h2
        · left
          simp only [List.map_cons, List.mem_cons]
          right
          exact h2
        · right
          exact h2

lemma nodup_keys_dictInsert {α : Type} (d : List (String × α)) (k : String) (v : α)
    (h : (d.map Prod.fst).Nodup) : ((dictInsert d k v).map Prod.fst).Nodup := by
  induction d with
  | nil => simp [dictInsert]
  | cons p rest ih =>
    simp only [List.map_cons, List.nodup_cons] at h
    by_cases hp : p.1 = k
    · simp only [dictInsert, hp, if_true, ite_true, List.map_cons, List.nodup_cons]
      refine ⟨?_, h.2⟩
      rw [← hp]
      exact h.1
    · simp only [dictInsert, hp, if_false, ite_false, List.map_cons, List.nodup_cons]
      refine ⟨?_, ih h.2⟩
      intro hmem
      rcases mem_keys_dictInsert rest k v p.1 hmem with hm | hm
      · exact h.1 hm
      · exact hp hm

lemma wellTyped_dictInsert (d : List (String × Token)) (k : String) (v : Token)
    (hd : ∀ p ∈ d, p.2.token_type = p.1) (hv : v.token_type = k) :
    ∀ p ∈ dictInsert d k v, p.2.token_type = p.1 := by
  induction d with
  | nil =>
    simp [dictInsert]
    exact hv
  | cons q rest ih =>
    simp only [List.forall_mem_cons] at hd
    by_cases hq : q.1 = k
    · simp only [dictInsert, hq, if_true, ite_true, List.forall_mem_cons]
      exact ⟨hv, hd.2⟩
    · simp only [dictInsert, hq, if_false, ite_false, List.forall_mem_cons]
      exact ⟨hd.1, ih hd.2⟩

lemma KeychainInv_dictInsert (d : List (String × Token)) (k : String) (v : Token)
    (h : KeychainInv d) (hv : v.token_type = k) : KeychainInv (dictInsert d k v) :=
  ⟨wellTyped_dictInsert d k v h.1 hv, nodup_keys_dictInsert d k v h.2⟩

/-- `generate_gtoken` preserves the keychain invariant. -/
lemma gg_inv (s : Sys) (now : Int) (h : KeychainInv s.mgr._tokens) :
    KeychainInv (s.generate_gtoken now).1.mgr._tokens := by
  unfold Sys.generate_gtoken
  split
  · exact h
  · rcases hw : s.world.gtokenResponses with _ | ⟨⟨g, ui⟩, rest⟩
    · simp only [Sys.callGetGtoken, hw]
      exact h
    · rcases ui with _ | ui
      · simp [Sys.callGetGtoken, hw, TokenManager.add_token]
        exact KeychainInv_dictInsert _ _ _ h rfl
      · simp [Sys.callGetGtoken, hw, TokenManager.add_token]
        exact KeychainInv_dictInsert _ _ _ h rfl

/-- The minting tail preserves the keychain invariant. -/
lemma mint_inv (s1 : Sys) (now : Int) (h : KeychainInv s1.mgr._tokens) :
    KeychainInv (s1.mintBullet now).1.mgr._tokens := by
  rcases hb : s1.world.bulletResponses with _ | ⟨b, rest⟩
  · unfold Sys.mintBullet
    simp only [Sys.callGetBulletToken, hb]
    exact h
  · rw [mint_spec s1 now b rest hb]
    exact KeychainInv_dictInsert _ _ _ h rfl

/-- One attempt of the bullet-token body preserves the keychain
invariant. -/
lemma body_inv (s : Sys) (now : Int) (h : KeychainInv s.mgr._tokens) :
    KeychainInv (s.generate_bullet_token_body now).1.mgr._tokens := by
  unfold Sys.generate_bullet_token_body
  split
  · exact h
  · by_cases hc : dictGet s.mgr._tokens GTOKEN = none ∨ s.mgr.nso._user_info = none
    · rw [if_pos hc]
      rcases hgg : s.generate_gtoken now with ⟨s1, e⟩
      have h1 : KeychainInv s1.mgr._tokens := by
        have h2 := gg_inv s now h
        rw [hgg] at h2
        exact h2
      rcases e with _ | e
      · simp only []
        exact mint_inv s1 now h1
      · simp only []
        exact h1
    · rw [if_neg hc]
      simp only []
      exact mint_inv s now h

/-- `generate_bullet_token` preserves the keychain invariant. -/
lemma bullet_inv (s : Sys) (now : Int) (h : KeychainInv s.mgr._tokens) :
    KeychainInv (s.generate_bullet_token now).1.mgr._tokens := by
  unfold Sys.generate_bullet_token
  rcases h1 : s.generate_bullet_token_body now with ⟨s1, e⟩
  have hb1 : KeychainInv s1.mgr._tokens := by
    have h2 := body_inv s now h
    rw [h1] at h2
    exact h2
  rcases e with _ | e
  · simp only []
    exact hb1
  · simp only []
    split
    · exact body_inv s1 now hb1
    · simp only []
      exact hb1

/-- Every single manager operation preserves the keychain invariant. -/
lemma runOp_inv (s : Sys) (op : MgrOp) (now : Int) (h : KeychainInv s.mgr._tokens) :
    KeychainInv ((s.runOp op now).1).mgr._tokens := by
  rcases op with ⟨t, tt, ts⟩ | tok | _ | _
  · unfold Sys.runOp
    rcases t with v | t
    · rcases tt with _ | tt
      · simp [TokenManager.add_token]
        exact h
      · by_cases hg : tt = GTOKEN
        · simp [TokenManager.add_token, hg]
          exact KeychainInv_dictInsert _ _ _ h rfl
        · simp [TokenManager.add_token, hg]
          exact KeychainInv_dictInsert _ _ _ h rfl
    · by_cases hg : t.token_type = GTOKEN
      · simp [TokenManager.add_token, hg]
        exact KeychainInv_dictInsert _ _ _ h hg
      · simp [TokenManager.add_token, hg]
        exact KeychainInv_dictInsert _ _ _ h rfl
  · unfold Sys.runOp TokenManager.add_session_token
    simp [TokenManager.add_token, sess_ne_gtoken]
    exact KeychainInv_dictInsert _ _ _ h rfl
  · exact gg_inv s now h
  · exact bullet_inv s now h

/-- Any sequence of operations preserves the keychain invariant. -/
lemma runOps_inv (ops : List (MgrOp × Int)) (s : Sys) (h : KeychainInv s.mgr._tokens) :
    KeychainInv (s.runOps ops).mgr._tokens := by
  induction ops generalizing s with
  | nil => exact h
  | cons p rest ih =>
    show KeychainInv ((((s.runOp p.1 p.2).1).runOps rest).mgr._tokens)
    exact ih _ (runOp_inv s p.1 p.2 h)

/-- C9: after any sequence of add_token, add_session_token,
generate_gtoken, and generate_bullet_token operations starting from an
invariant state, every stored pair maps kind K to a token whose
token_type is K and kinds are stored at most once; and an add of kind K
replaces the entry under K with the new token. -/
theorem claim_C9 :
    (∀ (s : Sys) (ops : List (MgrOp × Int)),
      KeychainInv s.mgr._tokens → KeychainInv (s.runOps ops).mgr._tokens) ∧
    (∀ (m m' : TokenManager) (v tt : String) (ts : Option Int) (now : Int),
      m.add_token (.str v) (some tt) ts now = .ok m' →
      dictGet m'._tokens tt = some ⟨v, tt, ts.getD now⟩) ∧
    (∀ (m m' : TokenManager) (t : Token) (tt : Option String) (ts : Option Int)
      (now : Int),
      m.add_token (.tok t) tt ts now = .ok m' →
      dictGet m'._tokens t.token_type = some t) := by
  refine ⟨fun s ops h => runOps_inv ops s h, ?_, ?_⟩
  · intro m m' v tt ts now h
    unfold TokenManager.add_token at h
    by_cases hg : tt = GTOKEN
    · simp only [hg, if_pos rfl, ite_true, Except.ok.injEq] at h
      subst h
      simp [hg, dictGet_dictInsert_self]
    · simp only [hg, if_false, ite_false, Except.ok.injEq] at h
      subst h
      simp [dictGet_dictInsert_self]
  · intro m m' t tt ts now h
    unfold TokenManager.add_token at h
    by_cases hg : t.token_type = GTOKEN
    · simp only [hg, if_pos rfl, ite_true, Except.ok.injEq] at h
      subst h
      rw [hg]
      simp [dictGet_dictInsert_self]
    · simp only [hg, if_false, ite_false, Except.ok.injEq] at h
      subst h
      simp [dictGet_dictInsert_self]

/-- A concrete empty starting state for the invariant run. -/
def SysC9 : Sys :=
  { mgr :=
      { nso := ⟨none, none, none⟩, _tokens := [], _data := [], _origin := none },
    world := { gtokenResponses := [⟨"g1", some ⟨"US", "en-US"⟩⟩], bulletResponses := ["b1"],
               probeResponses := [] },
    gtokenCalls := 0, bulletCalls := 0, probeCalls := 0 }

/-- A concrete operation sequence: seed the session, derive both tokens,
then overwrite the session entry. -/
def opsC9 : List (MgrOp × Int) :=
  [(.addSession "s1", 0), (.genGtoken, 1), (.genBullet, 2),
   (.addTok (.str "s2") (some SESSION_TOKEN) none, 3)]

/-- The manager after adding a session token to the empty manager. -/
def MgrC9after : TokenManager :=
  { nso := ⟨none, none, none⟩,
    _tokens := dictInsert [] SESSION_TOKEN ⟨"s2", SESSION_TOKEN, 3⟩,
    _data := [], _origin := none }

/-- C9 witness: the invariant holds after the concrete run `opsC9`, and
a concrete string add and a concrete Token-object add both land under
their kind. -/
theorem claim_C9_witness :
    KeychainInv (SysC9.runOps opsC9).mgr._tokens ∧
    dictGet MgrC9after._tokens SESSION_TOKEN =
      some ⟨"s2", SESSION_TOKEN, (none : Option Int).getD 3⟩ ∧
    dictGet MgrC9after._tokens SESSION_TOKEN = some ⟨"s2", SESSION_TOKEN, 3⟩ :=
  ⟨claim_C9.1 SysC9 opsC9 (by constructor <;> simp [SysC9]),
   claim_C9.2.1 SysC9.mgr MgrC9after "s2" SESSION_TOKEN none 3 rfl,
   claim_C9.2.2 SysC9.mgr MgrC9after ⟨"s2", SESSION_TOKEN, 3⟩ none none 3 rfl⟩

lemma dictGet_append_of_none {α : Type} (d1 d2 : List (String × α)) (k : String)
    (h : dictGet d1 k = none) : dictGet (d1 ++ d2) k = dictGet d2 k := by
  induction d1 with
  | nil => rfl
  | cons p rest ih =>
    simp only [dictGet] at h
    by_cases hp : p.1 = k
    · rw [if_pos hp] at h
      exact absurd h (by simp)
    · rw [if_neg hp] at h
      simp only [List.cons_append, dictGet, if_neg hp]
      exact ih h

lemma dictInsert_append_of_none {α : Type} (d : List (String × α)) (k : String) (v : α)
    (h : dictGet d k = none) : dictInsert d k v = d ++ [(k, v)] := by
  induction d with
  | nil => rfl
  | cons p rest ih =>
    simp only [dictGet] at h
    by_cases hp : p.1 = k
    · rw [if_pos hp] at h
      exact absurd h (by simp)
    · rw [if_neg hp] at h
      simp only [dictInsert, hp, if_false, ite_false, List.cons_append]
      rw [ih h]

lemma dictGet_map_keyed (d : List (String × Token)) (k : String) (now : Int) :
    dictGet (d.map (fun p => (p.1, Token.mk p.2.token p.1 now))) k =
      (dictGet d k).map (fun t => Token.mk t.token k now) := by
  induction d with
  | nil => rfl
  | cons p rest ih =>
    by_cases hp : p.1 = k
    · simp [List.map_cons, dictGet, hp]
    · simp [List.map_cons, dictGet, hp, ih]

/-- The single loading step appends a freshly stamped token under the
option name and touches neither the auxiliary data nor the origin. -/
lemma loadTokenStep_facts (m : TokenManager) (opt token : String) (now : Int) :
    (loadTokenStep m opt token now)._tokens = dictInsert m._tokens opt ⟨token, opt, now⟩ ∧
    (loadTokenStep m opt token now)._data = m._data ∧
    (loadTokenStep m opt token now)._origin = m._origin := by
  unfold loadTokenStep
  by_cases h1 : opt = SESSION_TOKEN
  · simp [h1, TokenManager.add_token, sess_ne_gtoken]
  · by_cases h2 : opt = GTOKEN
    · simp [h1, h2, TokenManager.add_token, Ne.symm sess_ne_gtoken]
    · simp [h1, h2, TokenManager.add_token]

/-- Loading a token section whose option names are fresh and unrepeated
appends the freshly stamped tokens in order; data and origin are
untouched. -/
lemma loadTokens_spec (opts : List (String × String)) (m : TokenManager) (now : Int)
    (hdis : ∀ k ∈ opts.map Prod.fst, dictGet m._tokens k = none)
    (hnd : (opts.map Prod.fst).Nodup) :
    (loadTokens m opts now)._tokens =
      m._tokens ++ opts.map (fun p => (p.1, Token.mk p.2 p.1 now)) ∧
    (loadTokens m opts now)._data = m._data ∧
    (loadTokens m opts now)._origin = m._origin := by
  induction opts generalizing m with
  | nil => simp [loadTokens]
  | cons p rest ih =>
    rcases p with ⟨opt, token⟩
    simp only [List.map_cons, List.forall_mem_cons] at hdis
    simp only [List.map_cons, List.nodup_cons] at hnd
    have hstep := loadTokenStep_facts m opt token now
    have htok : (loadTokenStep m opt token now)._tokens =
        m._tokens ++ [(opt, Token.mk token opt now)] := by
      rw [hstep.1, dictInsert_append_of_none _ _ _ hdis.1]
    have hdis' : ∀ k ∈ rest.map Prod.fst,
        dictGet (loadTokenStep m opt token now)._tokens k = none := by
      intro k hk
      rw [htok, dictGet_append_of_none _ _ _ (hdis.2 k hk)]
      have hne : opt ≠ k := by
        intro he
        exact hnd.1 (he ▸ hk)
      simp [dictGet, hne]
    have hrec := ih (loadTokenStep m opt token now) hdis' hnd.2
    show (loadTokens (loadTokenStep m opt token now) rest now)._tokens =
        m._tokens ++ ((opt, token) :: rest).map (fun p => (p.1, Token.mk p.2 p.1 now)) ∧
      (loadTokens (loadTokenStep m opt token now) rest now)._data = m._data ∧
      (loadTokens (loadTokenStep m opt token now) rest now)._origin = m._origin
    refine ⟨?_, ?_, ?_⟩
    · rw [hrec.1, htok]
      simp
    · rw [hrec.2.1, hstep.2.1]
    · rw [hrec.2.2, hstep.2.2]

/-- Loading a data section with fresh, unrepeated option names appends
the options in order; tokens, NSO and origin are untouched. -/
lemma loadData_spec (opts : List (String × String)) (m : TokenManager)
    (hdis : ∀ k ∈ opts.map Prod.fst, dictGet m._data k = none)
    (hnd : (opts.map Prod.fst).Nodup) :
    (loadData m opts)._data = m._data ++ opts ∧
    (loadData m opts)._tokens = m._tokens ∧
    (loadData m opts).nso = m.nso ∧
    (loadData m opts)._origin = m._origin := by
  induction opts generalizing m with
  | nil => simp [loadData]
  | cons p rest ih =>
    rcases p with ⟨opt, val⟩
    simp only [List.map_cons, List.forall_mem_cons] at hdis
    simp only [List.map_cons, List.nodup_cons] at hnd
    have hins : dictInsert m._data opt val = m._data ++ [(opt, val)] :=
      dictInsert_append_of_none _ _ _ hdis.1
    have hdis' : ∀ k ∈ rest.map Prod.fst,
        dictGet (dictInsert m._data opt val) k = none := by
      intro k hk
      rw [hins, dictGet_append_of_none _ _ _ (hdis.2 k hk)]
      have hne : opt ≠ k := by
        intro he
        exact hnd.1 (he ▸ hk)
      simp [dictGet, hne]
    have hrec := ih { m with _data := dictInsert m._data opt val } hdis' hnd.2
    show (loadData { m with _data := dictInsert m._data opt val } rest)._data =
        m._data ++ (opt, val) :: rest ∧
      (loadData { m with _data := dictInsert m._data opt val } rest)._tokens = m._tokens ∧
      (loadData { m with _data := dictInsert m._data opt val } rest).nso = m.nso ∧
      (loadData { m with _data := dictInsert m._data opt val } rest)._origin = m._origin
    refine ⟨?_, hrec.2.1, hrec.2.2.1, hrec.2.2.2⟩
    rw [hrec.1]
    simp only []
    rw [hins]
    simp

/-- The good path of the liveness check: session present, both derived
tokens valid, the language key present, and a scripted 200 — the probe
runs once and nothing is regenerated. -/
lemma test_tokens_good (s : Sys) (now : Int) (tk gt bt : Token) (prest : List Nat)
    (hsess : dictGet s.mgr._tokens SESSION_TOKEN = some tk)
    (hg : dictGet s.mgr._tokens GTOKEN = some gt)
    (hgv : gt.token ≠ "")
    (hb : dictGet s.mgr._tokens BULLET_TOKEN = some bt)
    (hbv : bt.token ≠ "")
    (hlang : (dictGet s.mgr._data "language").isSome)
    (hpr : s.world.probeResponses = 200 :: prest) :
    s.test_tokens now =
      ({ s with world := { s.world with probeResponses := prest },
                probeCalls := s.probeCalls + 1 }, none) := by
  rcases hl : dictGet s.mgr._data "language" with _ | lang
  · rw [hl] at hlang
    simp at hlang
  · unfold Sys.test_tokens
    rw [show s.mgr.get SESSION_TOKEN = .ok tk.token by
      unfold TokenManager.get TokenManager.get_full
      rw [hsess]
      rfl]
    simp only []
    rw [show s.mgr.token_is_valid GTOKEN = true by
      unfold TokenManager.token_is_valid TokenManager.get_full
      rw [hg]
      simpa [Token.is_valid] using hgv]
    rw [if_neg (by decide : ¬(true = false))]
    simp only []
    rw [show s.mgr.token_is_valid BULLET_TOKEN = true by
      unfold TokenManager.token_is_valid TokenManager.get_full
      rw [hb]
      simpa [Token.is_valid] using hbv]
    rw [if_neg (by decide : ¬(true = false))]
    simp only []
    rw [show s.mgr.get BULLET_TOKEN = .ok bt.token by
      unfold TokenManager.get TokenManager.get_full
      rw [hb]
      rfl]
    simp only []
    rw [hl]
    simp only []
    rw [show s.mgr.get GTOKEN = .ok gt.token by
      unfold TokenManager.get TokenManager.get_full
      rw [hg]
      rfl]
    simp only []
    unfold Sys.callProbe
    rw [hpr]
    simp

/-- `generate_all_tokens` under a good scripted world: one account call
then one access call, landing in `afterDerive`. -/
lemma genall_spec (s : Sys) (now : Int) (tk : Token) (g : String) (ui : UserInfo)
    (grest : List GtokenResponse) (b : String) (brest : List String)
    (hsess : dictGet s.mgr._tokens SESSION_TOKEN = some tk)
    (hgw : s.world.gtokenResponses = ⟨g, some ui⟩ :: grest)
    (hbw : s.world.bulletResponses = b :: brest)
    (hbne : b ≠ "") :
    s.generate_all_tokens now = (afterDerive s now g ui grest b brest, none) := by
  unfold Sys.generate_all_tokens
  rw [gg_spec s now tk g ui grest hsess hgw]
  simp only []
  unfold Sys.generate_bullet_token
  rw [body_spec _ now tk ⟨g, GTOKEN, now⟩ ui b brest
    (by exact (dictGet_dictInsert_ne _ _ _ _ sess_ne_gtoken).trans hsess)
    (by exact dictGet_dictInsert_self _ _ _) (by rfl) (by exact hbw)]
  rw [if_neg hbne]
  simp only []
  rfl

/-- The minting tail never probes. -/
lemma mint_probe (s1 : Sys) (now : Int) :
    (s1.mintBullet now).1.probeCalls = s1.probeCalls ∧
    (s1.mintBullet now).1.world.probeResponses = s1.world.probeResponses := by
  rcases hb : s1.world.bulletResponses with _ | ⟨b, rest⟩
  · unfold Sys.mintBullet
    simp [Sys.callGetBulletToken, hb]
  · rw [mint_spec s1 now b rest hb]
    exact ⟨rfl, rfl⟩

/-- One attempt of the bullet-token body never probes. -/
lemma body_probe (s : Sys) (now : Int) :
    (s.generate_bullet_token_body now).1.probeCalls = s.probeCalls ∧
    (s.generate_bullet_token_body now).1.world.probeResponses = s.world.probeResponses := by
  unfold Sys.generate_bullet_token_body
  split
  · exact ⟨rfl, rfl⟩
  · by_cases hc : dictGet s.mgr._tokens GTOKEN = none ∨ s.mgr.nso._user_info = none
    · rw [if_pos hc]
      rcases hgg : s.generate_gtoken now with ⟨s1, e⟩
      have hf := gg_frame s now
      rw [hgg] at hf
      simp only [] at hf
      rcases e with _ | e
      · simp only []
        have hm := mint_probe s1 now
        exact ⟨hm.1.trans hf.2.1, hm.2.trans hf.2.2.2.1⟩
      · simp only []
        exact ⟨hf.2.1, hf.2.2.2.1⟩
    · rw [if_neg hc]
      simp only []
      exact mint_probe s now

/-- `generate_bullet_token` never probes. -/
lemma bullet_probe (s : Sys) (now : Int) :
    (s.generate_bullet_token now).1.probeCalls = s.probeCalls ∧
    (s.generate_bullet_token now).1.world.probeResponses = s.world.probeResponses := by
  unfold Sys.generate_bullet_token
  rcases h1 : s.generate_bullet_token_body now with ⟨s1, e⟩
  have hb1 := body_probe s now
  rw [h1] at hb1
  simp only [] at hb1
  rcases e with _ | e
  · simp only []
    exact hb1
  · simp only []
    split
    · have hb2 := body_probe s1 now
      exact ⟨hb2.1.trans hb1.1, hb2.2.trans hb1.2⟩
    · exact hb1

/-- Full derivation (`generate_all_tokens`) never probes. -/
lemma genall_probe (s : Sys) (now : Int) :
    (s.generate_all_tokens now).1.probeCalls = s.probeCalls ∧
    (s.generate_all_tokens now).1.world.probeResponses = s.world.probeResponses := by
  unfold Sys.generate_all_tokens
  rcases hgg : s.generate_gtoken now with ⟨s1, e⟩
  have hf := gg_frame s now
  rw [hgg] at hf
  simp only [] at hf
  rcases e with _ | e
  · simp only []
    have hb := bullet_probe s1 now
    exact ⟨hb.1.trans hf.2.1, hb.2.trans hf.2.2.2.1⟩
  · simp only []
    exact ⟨hf.2.1, hf.2.2.2.1⟩

/-- A manager whose keychain holds only a session credential, with
auxiliary data present. -/
def MgrC3 : TokenManager :=
  { nso := ⟨some "sess", none, none⟩,
    _tokens := [(SESSION_TOKEN, ⟨"sess", SESSION_TOKEN, 0⟩)],
    _data := [("language", "en-US"), ("country", "US")], _origin := none }

/-- The scripted world for reloading `MgrC3`: one account response, one
access response, one healthy probe. -/
def WC3 : World := ⟨[⟨"g1", some ⟨"US", "en-US"⟩⟩], ["b1"], [200]⟩

/-- C3 counterexample: a manager with a non-empty keychain (session
only) saved and reloaded does NOT reproduce the same set of credential
kinds — the liveness check regenerates the missing gtoken and bullet
token, so the reloaded keychain has three kinds instead of one. -/
theorem claim_C3_counterexample :
    MgrC3._tokens ≠ [] ∧
    (from_config_file "p" MgrC3.save WC3 7).2 = none ∧
    (from_config_file "p" MgrC3.save WC3 7).1.mgr._tokens.map Prod.fst ≠
      MgrC3._tokens.map Prod.fst := by
  decide

/-- C3 amended: for a manager whose keychain holds the session kind and
valid (non-empty) gtoken and bullet entries, with unrepeated token and
data option names and the language key present, and a world whose
liveness probe answers 200, `save` then `from_config_file` reproduces
exactly the same credential kinds with the same values and the same
auxiliary data (timestamps are refreshed). A keychain missing a valid
derived credential is instead regenerated on load. -/
theorem claim_C3 (m : TokenManager) (w : World) (path : String) (now : Int)
    (tk gt bt : Token) (prest : List Nat)
    (hndt : (m._tokens.map Prod.fst).Nodup)
    (hndd : (m._data.map Prod.fst).Nodup)
    (hsess : dictGet m._tokens SESSION_TOKEN = some tk)
    (hg : dictGet m._tokens GTOKEN = some gt) (hgv : gt.token ≠ "")
    (hb : dictGet m._tokens BULLET_TOKEN = some bt) (hbv : bt.token ≠ "")
    (hlang : (dictGet m._data "language").isSome)
    (hpr : w.probeResponses = 200 :: prest) :
    (from_config_file path m.save w now).2 = none ∧
    (from_config_file path m.save w now).1.mgr._tokens.map (fun p => (p.1, p.2.token)) =
      m._tokens.map (fun p => (p.1, p.2.token)) ∧
    (from_config_file path m.save w now).1.mgr._data = m._data := by
  have hsaved_keys : ((m._tokens.map (fun p => (p.1, p.2.token))).map Prod.fst) =
      m._tokens.map Prod.fst := by
    simp [List.map_map, Function.comp]
  have hLT := loadTokens_spec (m._tokens.map (fun p => (p.1, p.2.token)))
    (initialManager path) now (fun k _ => rfl) (by rw [hsaved_keys]; exact hndt)
  have hLTtok : (loadTokens (initialManager path)
      (m._tokens.map (fun p => (p.1, p.2.token))) now)._tokens =
      m._tokens.map (fun p => (p.1, Token.mk p.2.token p.1 now)) := by
    rw [hLT.1]
    simp [initialManager, TokenManager.flag_origin, List.map_map, Function.comp]
  have hLD := loadData_spec m._data
    (loadTokens (initialManager path) (m._tokens.map (fun p => (p.1, p.2.token))) now)
    (by
      intro k hk
      rw [hLT.2.1]
      rfl) hndd
  have hLDdata : (loadData (loadTokens (initialManager path)
      (m._tokens.map (fun p => (p.1, p.2.token))) now) m._data)._data = m._data := by
    rw [hLD.1, hLT.2.1]
    rfl
  have hLDtok : (loadData (loadTokens (initialManager path)
      (m._tokens.map (fun p => (p.1, p.2.token))) now) m._data)._tokens =
      m._tokens.map (fun p => (p.1, Token.mk p.2.token p.1 now)) := by
    rw [hLD.2.1, hLTtok]
  have hfcf : from_config_file path m.save w now =
      Sys.test_tokens
        { mgr := loadData (loadTokens (initialManager path)
            (m._tokens.map (fun p => (p.1, p.2.token))) now) m._data,
          world := w, gtokenCalls := 0, bulletCalls := 0, probeCalls := 0 } now := rfl
  have httg := test_tokens_good
    { mgr := loadData (loadTokens (initialManager path)
        (m._tokens.map (fun p => (p.1, p.2.token))) now) m._data,
      world := w, gtokenCalls := 0, bulletCalls := 0, probeCalls := 0 } now
    ⟨tk.token, SESSION_TOKEN, now⟩ ⟨gt.token, GTOKEN, now⟩ ⟨bt.token, BULLET_TOKEN, now⟩
    prest
    (by
      show dictGet (loadData (loadTokens (initialManager path)
        (m._tokens.map (fun p => (p.1, p.2.token))) now) m._data)._tokens SESSION_TOKEN = _
      rw [hLDtok, dictGet_map_keyed, hsess]
      rfl)
    (by
      show dictGet (loadData (loadTokens (initialManager path)
        (m._tokens.map (fun p => (p.1, p.2.token))) now) m._data)._tokens GTOKEN = _
      rw [hLDtok, dictGet_map_keyed, hg]
      rfl)
    (by exact hgv)
    (by
      show dictGet (loadData (loadTokens (initialManager path)
        (m._tokens.map (fun p => (p.1, p.2.token))) now) m._data)._tokens BULLET_TOKEN = _
      rw [hLDtok, dictGet_map_keyed, hb]
      rfl)
    (by exact hbv)
    (by
      show (dictGet (loadData (loadTokens (initialManager path)
        (m._tokens.map (fun p => (p.1, p.2.token))) now) m._data)._data "language").isSome
      rw [hLDdata]
      exact hlang)
    (by exact hpr)
  rw [hfcf, httg]
  refine ⟨rfl, ?_, ?_⟩
  · show (loadData (loadTokens (initialManager path)
      (m._tokens.map (fun p => (p.1, p.2.token))) now) m._data)._tokens.map
        (fun p => (p.1, p.2.token)) = _
    rw [hLDtok]
    simp [List.map_map, Function.comp]
  · show (loadData (loadTokens (initialManager path)
      (m._tokens.map (fun p => (p.1, p.2.token))) now) m._data)._data = m._data
    exact hLDdata

/-- A manager with all three credential kinds valid and locale data. -/
def MgrC3G : TokenManager :=
  { nso := ⟨some "sess", some "gee", some ⟨"US", "en-US"⟩⟩,
    _tokens := [(SESSION_TOKEN, ⟨"sess", SESSION_TOKEN, 0⟩), (GTOKEN, ⟨"gee", GTOKEN, 0⟩),
                (BULLET_TOKEN, ⟨"bul", BULLET_TOKEN, 0⟩)],
    _data := [("language", "en-US"), ("country", "US")], _origin := none }

/-- A scripted world whose probe answers 200 and which scripts no
minting responses, so any regeneration attempt would fail visibly. -/
def WC3G : World := ⟨[], [], [200]⟩

/-- C3 witness: the round trip at the concrete full manager `MgrC3G`. -/
theorem claim_C3_witness :
    (from_config_file "p" MgrC3G.save WC3G 7).2 = none ∧
    (from_config_file "p" MgrC3G.save WC3G 7).1.mgr._tokens.map (fun p => (p.1, p.2.token)) =
      MgrC3G._tokens.map (fun p => (p.1, p.2.token)) ∧
    (from_config_file "p" MgrC3G.save WC3G 7).1.mgr._data = MgrC3G._data :=
  claim_C3 MgrC3G WC3G "p" 7 ⟨"sess", SESSION_TOKEN, 0⟩ ⟨"gee", GTOKEN, 0⟩
    ⟨"bul", BULLET_TOKEN, 0⟩ [] (by decide) (by decide) (by decide) (by decide)
    (by decide) (by decide) (by decide) (by decide) rfl

/-- C7: (a) a config without a tokens section fails with `ValueError`
(`ConfigFormatError`) and performs no network calls; (b) with a tokens
section but no data section, full Account+Access derivation runs — the
liveness probe never runs whatever the scripted world, and under a good
script exactly one account and one access call happen; (c) with both
sections present the liveness probe runs instead (exactly once in the
healthy case, with no minting calls). -/
theorem claim_C7 :
    (∀ (cfg : ConfigFile) (w : World) (path : String) (now : Int),
      cfg.tokens = none →
      ((from_config_file path cfg w now).2 =
        some (.valueError "Config file does not have a tokens section.") ∧
       (from_config_file path cfg w now).1.gtokenCalls = 0 ∧
       (from_config_file path cfg w now).1.bulletCalls = 0 ∧
       (from_config_file path cfg w now).1.probeCalls = 0)) ∧
    (∀ (cfg : ConfigFile) (topts : List (String × String)) (w : World) (path : String)
      (now : Int),
      cfg.tokens = some topts →
      cfg.data = none →
      ((from_config_file path cfg w now).1.probeCalls = 0 ∧
       (from_config_file path cfg w now).1.world.probeResponses = w.probeResponses)) ∧
    (∀ (cfg : ConfigFile) (topts : List (String × String)) (w : World) (path : String)
      (now : Int) (LT : TokenManager) (tk : Token) (g : String) (ui : UserInfo)
      (grest : List GtokenResponse) (b : String) (brest : List String),
      cfg.tokens = some topts →
      cfg.data = none →
      loadTokens (initialManager path) topts now = LT →
      dictGet LT._tokens SESSION_TOKEN = some tk →
      w.gtokenResponses = ⟨g, some ui⟩ :: grest →
      w.bulletResponses = b :: brest →
      b ≠ "" →
      ((from_config_file path cfg w now).1.gtokenCalls = 1 ∧
       (from_config_file path cfg w now).1.bulletCalls = 1 ∧
       (from_config_file path cfg w now).2 = none)) ∧
    (∀ (cfg : ConfigFile) (topts dopts : List (String × String)) (w : World)
      (path : String) (now : Int) (L : TokenManager) (tk gt bt : Token)
      (prest : List Nat),
      cfg.tokens = some topts →
      cfg.data = some dopts →
      loadData (loadTokens (initialManager path) topts now) dopts = L →
      dictGet L._tokens SESSION_TOKEN = some tk →
      dictGet L._tokens GTOKEN = some gt → gt.token ≠ "" →
      dictGet L._tokens BULLET_TOKEN = some bt → bt.token ≠ "" →
      (dictGet L._data "language").isSome →
      w.probeResponses = 200 :: prest →
      ((from_config_file path cfg w now).1.probeCalls = 1 ∧
       (from_config_file path cfg w now).1.gtokenCalls = 0 ∧
       (from_config_file path cfg w now).1.bulletCalls = 0 ∧
       (from_config_file path cfg w now).2 = none)) := by
  refine ⟨?_, ?_, ?_, ?_⟩
  · intro cfg w path now h
    rcases cfg with ⟨ct, cd, md⟩
    simp only [] at h
    subst h
    exact ⟨rfl, rfl, rfl, rfl⟩
  · intro cfg topts w path now ht hd
    rcases cfg with ⟨ct, cd, md⟩
    simp only [] at ht hd
    subst ht
    subst hd
    have hfcf : from_config_file path ⟨some topts, none, md⟩ w now =
        Sys.generate_all_tokens
          { mgr := loadTokens (initialManager path) topts now, world := w,
            gtokenCalls := 0, bulletCalls := 0, probeCalls := 0 } now := rfl
    rw [hfcf]
    have hp := genall_probe
      { mgr := loadTokens (initialManager path) topts now, world := w,
        gtokenCalls := 0, bulletCalls := 0, probeCalls := 0 } now
    exact ⟨hp.1, hp.2⟩
  · intro cfg topts w path now LT tk g ui grest b brest ht hd hL hsess hgw hbw hbne
    rcases cfg with ⟨ct, cd, md⟩
    simp only [] at ht hd
    subst ht
    subst hd
    subst hL
    have hfcf : from_config_file path ⟨some topts, none, md⟩ w now =
        Sys.generate_all_tokens
          { mgr := loadTokens (initialManager path) topts now, world := w,
            gtokenCalls := 0, bulletCalls := 0, probeCalls := 0 } now := rfl
    rw [hfcf]
    rw [genall_spec _ now tk g ui grest b brest (by exact hsess) (by exact hgw)
      (by exact hbw) hbne]
    exact ⟨rfl, rfl, rfl⟩
  · intro cfg topts dopts w path now L tk gt bt prest ht hd hL hsess hg hgv hb hbv
      hlang hpr
    rcases cfg with ⟨ct, cd, md⟩
    simp only [] at ht hd
    subst ht
    subst hd
    subst hL
    have hfcf : from_config_file path ⟨some topts, some dopts, md⟩ w now =
        Sys.test_tokens
          { mgr := loadData (loadTokens (initialManager path) topts now) dopts,
            world := w, gtokenCalls := 0, bulletCalls := 0, probeCalls := 0 } now := rfl
    rw [hfcf]
    rw [test_tokens_good _ now tk gt bt prest (by exact hsess) (by exact hg) hgv
      (by exact hb) hbv (by exact hlang) (by exact hpr)]
    exact ⟨rfl, rfl, rfl, rfl⟩

/-- C7 witness: the three paths at concrete configs — missing tokens
section, tokens-only config (fresh derivation, probe script untouched),
and a full config (one probe, no minting). -/
theorem claim_C7_witness :
    ((from_config_file "p" ⟨none, none, []⟩ ⟨[], [], []⟩ 0).2 =
      some (.valueError "Config file does not have a tokens section.") ∧
     (from_config_file "p" ⟨none, none, []⟩ ⟨[], [], []⟩ 0).1.gtokenCalls = 0 ∧
     (from_config_file "p" ⟨none, none, []⟩ ⟨[], [], []⟩ 0).1.bulletCalls = 0 ∧
     (from_config_file "p" ⟨none, none, []⟩ ⟨[], [], []⟩ 0).1.probeCalls = 0) ∧
    ((from_config_file "p" ⟨some [(SESSION_TOKEN, "sess")], none, []⟩
        ⟨[⟨"g1", some ⟨"US", "en-US"⟩⟩], ["b1"], [404]⟩ 0).1.probeCalls = 0 ∧
     (from_config_file "p" ⟨some [(SESSION_TOKEN, "sess")], none, []⟩
        ⟨[⟨"g1", some ⟨"US", "en-US"⟩⟩], ["b1"], [404]⟩ 0).1.world.probeResponses = [404]) ∧
    ((from_config_file "p" ⟨some [(SESSION_TOKEN, "sess")], none, []⟩
        ⟨[⟨"g1", some ⟨"US", "en-US"⟩⟩], ["b1"], [404]⟩ 0).1.gtokenCalls = 1 ∧
     (from_config_file "p" ⟨some [(SESSION_TOKEN, "sess")], none, []⟩
        ⟨[⟨"g1", some ⟨"US", "en-US"⟩⟩], ["b1"], [404]⟩ 0).1.bulletCalls = 1 ∧
     (from_config_file "p" ⟨some [(SESSION_TOKEN, "sess")], none, []⟩
        ⟨[⟨"g1", some ⟨"US", "en-US"⟩⟩], ["b1"], [404]⟩ 0).2 = none) ∧
    ((from_config_file "p" MgrC3G.save ⟨[], [], [200]⟩ 7).1.probeCalls = 1 ∧
     (from_config_file "p" MgrC3G.save ⟨[], [], [200]⟩ 7).1.gtokenCalls = 0 ∧
     (from_config_file "p" MgrC3G.save ⟨[], [], [200]⟩ 7).1.bulletCalls = 0 ∧
     (from_config_file "p" MgrC3G.save ⟨[], [], [200]⟩ 7).2 = none) :=
  ⟨claim_C7.1 ⟨none, none, []⟩ ⟨[], [], []⟩ "p" 0 rfl,
   claim_C7.2.1 ⟨some [(SESSION_TOKEN, "sess")], none, []⟩ [(SESSION_TOKEN, "sess")]
     ⟨[⟨"g1", some ⟨"US", "en-US"⟩⟩], ["b1"], [404]⟩ "p" 0 rfl rfl,
   claim_C7.2.2.1 ⟨some [(SESSION_TOKEN, "sess")], none, []⟩ [(SESSION_TOKEN, "sess")]
     ⟨[⟨"g1", some ⟨"US", "en-US"⟩⟩], ["b1"], [404]⟩ "p" 0
     (loadTokens (initialManager "p") [(SESSION_TOKEN, "sess")] 0)
     ⟨"sess", SESSION_TOKEN, 0⟩ "g1" ⟨"US", "en-US"⟩ [] "b1" []
     rfl rfl rfl (by decide) rfl rfl (by decide),
   claim_C7.2.2.2 MgrC3G.save
     (MgrC3G._tokens.map (fun p => (p.1, p.2.token))) MgrC3G._data
     ⟨[], [], [200]⟩ "p" 7
     (loadData (loadTokens (initialManager "p")
       (MgrC3G._tokens.map (fun p => (p.1, p.2.token))) 7) MgrC3G._data)
     ⟨"sess", SESSION_TOKEN, 7⟩ ⟨"gee", GTOKEN, 7⟩ ⟨"bul", BULLET_TOKEN, 7⟩ []
     (by rfl) (by rfl) (by rfl) (by decide) (by decide) (by decide) (by decide)
     (by decide) (by decide) (by rfl)⟩

end Splatnet3
